import Mathlib

/-!
Verification development for `src/satellite_consumer/storage.py`.

The file shallowly embeds the storage module: Python runtime values that can
occur as `DataArray` attributes become the inductive type `PyVal`; the
attribute-normalization loop of `write_to_zarr` (lines 47-61) becomes
`normalizeAttrValue` / `normalizeAttrs`; the mode/kwargs selection
(lines 38-45) and the chunk/cast/commit `try` block (lines 63-72) become
`write_to_zarr`, with the outcome of the external `to_zarr` commit supplied
as an explicit `Except` parameter; `get_s3_fs` (lines 108-123) becomes
`get_s3_fs` over an explicit environment record; the zip-packaging path
computation (line 88) becomes `zippath`, and the observable destination-file
contents of the packaging block (lines 89-95) at each interruption point
become `destAfter`.
-/

/-- Python runtime values that appear as attribute values or coordinate
values in the storage module.  Payloads of external library objects are the
strings their library-native serializers produce: `areaDef` carries the
string returned by `pyresample`'s `AreaDefinition.dump()`, `datetime`
carries the string returned by `datetime.isoformat()`.  `npfloat32` is a
reduced-precision numpy floating scalar (the kind the code widens with
`float(...)` before `yaml.dump`); its numeric payload is kept abstractly as
an integer code, since no claim depends on float arithmetic.  `other` covers
every remaining Python kind, which the code never inspects. -/
inductive PyVal where
  | pstr (s : String)
  | pint (n : Int)
  | pfloat (v : Int)
  | npfloat32 (v : Int)
  | pbool (b : Bool)
  | npbool (b : Bool)
  | pdict (entries : List (String × PyVal))
  | areaDef (dumpStr : String)
  | datetime (isoStr : String)
  | other (tag : String)

/-- Whether a value contains a reduced-precision numpy float anywhere inside
it (at any nesting depth of dictionaries). -/
def hasNpFloat32 : PyVal → Bool
  | .npfloat32 _ => true
  | .pdict es => go es
  | _ => false
where go : List (String × PyVal) → Bool
  | [] => false
  | (_, v) :: rest => hasNpFloat32 v || go rest

/-- Python `str(...)` on the value kinds the module applies it to
(`str(value)` for booleans at line 56, and the elementwise `astype(str)`
cast of the `variable` coordinate at line 65).  `str(True) = "True"`,
`str(np.bool_(True)) = "True"`; strings map to themselves; the remaining
clauses are canonical textual renderings whose exact shape no claim
depends on. -/
def pyStrOf : PyVal → String
  | .pstr s => s
  | .pint n => toString n
  | .pfloat v => toString v ++ ".0"
  | .npfloat32 v => toString v
  | .pbool b => if b then "True" else "False"
  | .npbool b => if b then "True" else "False"
  | .pdict _ => "dict"
  | .areaDef d => d
  | .datetime i => i
  | .other t => t

/-- Block-style textual encoding of a value, total over `PyVal`; used as the
output of `yaml.dump` on the inputs where that call succeeds. -/
def yamlEncode : PyVal → String
  | .pstr s => s
  | .pint n => toString n
  | .pfloat v => toString v ++ ".0"
  | .npfloat32 v => toString v
  | .pbool b => if b then "true" else "false"
  | .npbool b => if b then "true" else "false"
  | .pdict es => go es
  | .areaDef d => d
  | .datetime i => i
  | .other t => t
where go : List (String × PyVal) → String
  | [] => ""
  | (k, v) :: rest => k ++ ": " ++ yamlEncode v ++ "\n" ++ go rest

/-- The `yaml.dump` call at line 54.  Per the code's own comment at
line 49 ("Convert np.float32 to Python floats (otherwise yaml.dump
complains)"), the textual encoder raises on reduced-precision numpy floats,
at any depth; on inputs free of them it returns the encoding. -/
def yamlDump (v : PyVal) : Except String String :=
  if hasNpFloat32 v then
    .error ("RepresenterError: cannot represent numpy.float32")
  else
    .ok (yamlEncode v)

/-- The inner widening loop at lines 50-53: for each top-level entry of the
nested dictionary, an `np.floating` value is replaced by `float(...)` of it;
everything else (including deeper dictionaries) is left untouched. -/
def widenTop (es : List (String × PyVal)) : List (String × PyVal) :=
  es.map (fun kv =>
    match kv.2 with
    | .npfloat32 x => (kv.1, .pfloat x)
    | _ => kv)

/-- One iteration of the attribute loop at lines 47-61.  The source uses a
chain of non-exclusive `if isinstance(value, ...)` tests, but every test
inspects the ORIGINAL `value` binding and the tested kinds (dict,
bool/np.bool_, AreaDefinition, datetime) are pairwise disjoint, so at most
one branch fires per value and the chain is equivalent to this single
dispatch.  A failing `yaml.dump` propagates its error (the loop is outside
the `try` block). -/
def normalizeAttrValue : PyVal → Except String PyVal
  | .pdict es => (yamlDump (.pdict (widenTop es))).map .pstr
  | .pbool b => .ok (.pstr (pyStrOf (.pbool b)))
  | .npbool b => .ok (.pstr (pyStrOf (.npbool b)))
  | .areaDef d => .ok (.pstr d)
  | .datetime i => .ok (.pstr i)
  | v => .ok v

/-- The whole attribute loop: normalize each entry of `da.attrs` in order,
propagating the first failure. -/
def normalizeAttrs : List (String × PyVal) → Except String (List (String × PyVal))
  | [] => .ok []
  | (k, v) :: rest =>
    match normalizeAttrValue v with
    | .error m => .error m
    | .ok w =>
      match normalizeAttrs rest with
      | .error m => .error m
      | .ok ws => .ok ((k, w) :: ws)

/-- A data array as the storage module sees it: its attribute mapping, the
values of its `variable` coordinate, and the extents of its dimensions. -/
structure DataArray where
  attrs : List (String × PyVal)
  variableCoord : List PyVal
  timeLen : Nat
  xLen : Nat
  yLen : Nat

/-- The chunk-size dictionary literal at line 64:
`{"time": 1, "x_geostationary": -1, "y_geostationary": -1, "variable": 1}`. -/
def chunkSpecDict : List (String × Int) :=
  [("time", 1), ("x_geostationary", -1), ("y_geostationary", -1), ("variable", 1)]

/-- Meaning of one chunk-size entry: `-1` means a single chunk spanning the
dimension's full extent, a non-negative size is used as given. -/
def applyChunk (spec : Int) (extent : Nat) : Nat :=
  if spec < 0 then extent else spec.toNat

/-- Chunk size per entry of the dictionary, `0` for a dimension the
dictionary does not mention. -/
def lookupChunkSpec (dim : String) : Int :=
  (chunkSpecDict.lookup dim).getD 0

/-- The chunk sizes of the four dimensions after `da.chunk(...)`. -/
structure ChunkLayout where
  time : Nat
  x_geostationary : Nat
  y_geostationary : Nat
  variableDim : Nat
  deriving DecidableEq

/-- Effect of the `da.chunk({...})` call at line 64 on an array with the
given dimension extents. -/
def chunkLayoutFor (da : DataArray) : ChunkLayout :=
  { time := applyChunk (lookupChunkSpec ("time")) da.timeLen
    x_geostationary := applyChunk (lookupChunkSpec ("x_geostationary")) da.xLen
    y_geostationary := applyChunk (lookupChunkSpec ("y_geostationary")) da.yLen
    variableDim := applyChunk (lookupChunkSpec ("variable")) da.variableCoord.length }

/-- The elementwise `astype(str)` cast applied to the `variable` coordinate
at line 65. -/
def astypeStrElem (v : PyVal) : PyVal := .pstr (pyStrOf v)

/-- The `units` entry of the per-dimension encoding dictionary
(`{"units": "nanoseconds since 1970-01-01"}` at line 43). -/
structure TimeUnits where
  units : String
  deriving DecidableEq

/-- The `extra_kwargs` dictionary at lines 39-45: either
`{"append_dim": "time"}` or `{"encoding": {"time": {...}}}`. -/
inductive ZarrKwargs where
  | append (append_dim : String)
  | create (encoding : List (String × TimeUnits))
  deriving DecidableEq

/-- Exceptions the embedded `write_to_zarr` can surface: a
`RepresenterError` escaping the normalization loop, or the `OSError` raised
at line 72 carrying the formatted message and the underlying cause. -/
inductive PyErr where
  | representerError (msg : String)
  | osError (msg : String) (cause : String)
  deriving DecidableEq

/-- What a successful `ds.to_zarr` commit received: the mode, the extra
keyword arguments, the chunk layout, the cast `variable` coordinate, the
normalized attributes, and the target path. -/
structure CommitRecord where
  mode : String
  kwargs : ZarrKwargs
  chunks : ChunkLayout
  varCoord : List PyVal
  attrs : List (String × PyVal)
  path : String

/-- The body of `write_to_zarr` (lines 38-74).  `storeExists` is the result
of the `fs.exists(path)` probe at line 38; `commit` is the outcome of the
external `ds.to_zarr` call at lines 67-70 (the only fallible operation of
the `try` block in this model).  The normalization loop runs BEFORE the
`try`, so its failures propagate unwrapped; a failure inside the `try` is
re-raised as the `OSError` of line 72, carrying the path and the cause. -/
def write_to_zarr (da : DataArray) (storeExists : Bool) (commit : Except String Unit)
    (path : String) : Except PyErr CommitRecord :=
  let mode : String := if storeExists then "a" else "w"
  let kwargs : ZarrKwargs :=
    if mode = "a" then .append ("time")
    else .create [("time", { units := "nanoseconds since 1970-01-01" })]
  match normalizeAttrs da.attrs with
  | .error m => .error (.representerError m)
  | .ok attrs2 =>
    match commit with
    | .error e =>
      .error (.osError ("Error writing dataset to zarr store " ++ path ++ ": " ++ e) e)
    | .ok _ =>
      .ok { mode := mode, kwargs := kwargs, chunks := chunkLayoutFor da,
            varCoord := da.variableCoord.map astypeStrElem, attrs := attrs2,
            path := path }

/-- The process environment as `get_s3_fs` reads it. -/
structure Env where
  awsAccessKeyId : Option String
  awsSecretAccessKey : Option String
  awsRegion : Option String

/-- The `s3fs.S3FileSystem(...)` constructed at lines 117-123. -/
structure S3FileSystem where
  anon : Bool
  key : String
  secret : String
  regionName : String
  asynchronous : Bool
  deriving DecidableEq

/-- The `OSError` message of lines 113-116 for a missing variable. -/
def missingVarMsg (v : String) : String :=
  "Cannot use provided S3 workdir due to missing required authorization environment variable '"
    ++ v ++ "'"

/-- The body of `get_s3_fs` (lines 108-123): the loop checks
`AWS_ACCESS_KEY_ID` first, then `AWS_SECRET_ACCESS_KEY`, raising on the
first one absent; otherwise it builds the filesystem handle with
`region_name = os.getenv("AWS_REGION", "eu-west-1")`. -/
def get_s3_fs (env : Env) : Except String S3FileSystem :=
  match env.awsAccessKeyId with
  | none => .error (missingVarMsg ("AWS_ACCESS_KEY_ID"))
  | some key =>
    match env.awsSecretAccessKey with
    | none => .error (missingVarMsg ("AWS_SECRET_ACCESS_KEY"))
    | some secret =>
      .ok { anon := false, key := key, secret := secret,
            regionName := env.awsRegion.getD ("eu-west-1"), asynchronous := true }

/-- Python `path.rsplit("/", 1)[0]`: the prefix before the last `/`, or the
whole string when it contains no `/`. -/
def rsplitHead (s : String) : String :=
  match s.toList.reverse.dropWhile (fun c => c ≠ '/') with
  | [] => s
  | _ :: rest => String.mk rest.reverse

/-- The destination path computed at line 88:
`zarr_path.rsplit("/", 1)[0] + "/latest.zarr.zip"`. -/
def zippath (zarr_path : String) : String :=
  rsplitHead zarr_path ++ "/latest.zarr.zip"

/-- The value `create_latest_zip` returns to its caller on success
(line 96). -/
def create_latest_zip_result (zarr_path : String) : String :=
  zippath zarr_path

/-- Modelled from the spec: the "parent directory" of a store path
(`<store-parent>` in the spec's destination formula) — the prefix before the
last `/`, empty for a path with no directory separator.  This is the
spec-side notion the code's `rsplit`-based computation is compared
against. -/
def specParentDir (s : String) : String :=
  match s.toList.reverse.dropWhile (fun c => c ≠ '/') with
  | [] => ""
  | _ :: rest => String.mk rest.reverse

/-- Interruption points of the packaging block at lines 89-95, in program
order: before the `with` header runs; after `fs.open(zippath, "wb")` has
run but the staging `ds.to_zarr(ZipStore(...))` raised; during the
`shutil.copyfileobj` loop with `k` complete blocks transferred; and after
the block completed. -/
inductive PackPoint where
  | beforeOpen
  | stagingFailed
  | midCopy (blocksCopied : Nat)
  | completed
  deriving DecidableEq

/-- The block size `length=16 * 1024` passed to `shutil.copyfileobj` at
line 93. -/
def copyBlockLen : Nat := 16 * 1024

/-- Contents of the destination file `zippath` at each interruption point
of lines 89-95, given the prior archive's bytes and the staged new
archive's bytes.  Opening a local destination with mode `"wb"` in the
`with` header truncates it to length zero before the `try` body runs, so a
staging failure leaves it empty; `shutil.copyfileobj` then appends
`copyBlockLen`-byte blocks until the full new archive is written. -/
def destAfter (prior newArchive : List Nat) : PackPoint → List Nat
  | .beforeOpen => prior
  | .stagingFailed => []
  | .midCopy k => newArchive.take (k * copyBlockLen)
  | .completed => newArchive

/-- Discriminator for the wrapped storage-write failure shape (the
`OSError` of line 72). -/
def isWrappedWriteError : Except PyErr CommitRecord → Bool
  | .error (.osError _ _) => true
  | _ => false

/-- Discriminator for any failure outcome of the embedded
`write_to_zarr`. -/
def isWriteError : Except PyErr CommitRecord → Bool
  | .error _ => true
  | _ => false

/-- Discriminator for string-valued `PyVal`s. -/
def isPstr : PyVal → Bool
  | .pstr _ => true
  | _ => false

/-- Decidable side condition: every reduced-precision numpy float of the
dictionary occurs as an immediate (top-level) value, never deeper. -/
def reducedFloatsOnlyAtTop (es : List (String × PyVal)) : Bool :=
  es.all (fun kv =>
    match kv.2 with
    | .npfloat32 _ => true
    | v => !(hasNpFloat32 v))

/-- Example array used by concrete witnesses: integer-typed `variable`
coordinate, no attributes. -/
def wDa : DataArray :=
  { attrs := [], variableCoord := [PyVal.pint 6], timeLen := 4, xLen := 2, yLen := 3 }

/-- The commit record `write_to_zarr wDa true (.ok ()) "p"` produces. -/
def wRecAppend : CommitRecord :=
  { mode := "a", kwargs := .append ("time")
    chunks := { time := 1, x_geostationary := 2, y_geostationary := 3, variableDim := 1 }
    varCoord := [PyVal.pstr ("6")], attrs := [], path := "p" }

/-- The commit record `write_to_zarr wDa false (.ok ()) "p"` produces. -/
def wRecCreate : CommitRecord :=
  { mode := "w", kwargs := .create [("time", { units := "nanoseconds since 1970-01-01" })]
    chunks := { time := 1, x_geostationary := 2, y_geostationary := 3, variableDim := 1 }
    varCoord := [PyVal.pstr ("6")], attrs := [], path := "p" }

/-- Helper: a value produced by a successful normalization step is a fixed
point of normalization. -/
theorem normalizeAttrValue_idem (v w : PyVal) (h : normalizeAttrValue v = .ok w) :
    normalizeAttrValue w = .ok w := by
  cases v with
  | pdict es =>
    simp only [normalizeAttrValue] at h
    cases hd : yamlDump (.pdict (widenTop es)) with
    | error m => rw [hd] at h; simp [Except.map] at h
    | ok s =>
      rw [hd] at h
      simp only [Except.map, Except.ok.injEq] at h
      subst h
      rfl
  | pbool b =>
    simp only [normalizeAttrValue, Except.ok.injEq] at h
    subst h
    rfl
  | npbool b =>
    simp only [normalizeAttrValue, Except.ok.injEq] at h
    subst h
    rfl
  | areaDef d =>
    simp only [normalizeAttrValue, Except.ok.injEq] at h
    subst h
    rfl
  | datetime i =>
    simp only [normalizeAttrValue, Except.ok.injEq] at h
    subst h
    rfl
  | pstr s =>
    simp only [normalizeAttrValue, Except.ok.injEq] at h
    subst h
    rfl
  | pint n =>
    simp only [normalizeAttrValue, Except.ok.injEq] at h
    subst h
    rfl
  | pfloat x =>
    simp only [normalizeAttrValue, Except.ok.injEq] at h
    subst h
    rfl
  | npfloat32 x =>
    simp only [normalizeAttrValue, Except.ok.injEq] at h
    subst h
    rfl
  | other t =>
    simp only [normalizeAttrValue, Except.ok.injEq] at h
    subst h
    rfl

/-- Claim C1: the spec guarantees the destination archive is always either
the complete prior snapshot or the complete new snapshot, never zero-length
or truncated, even if packaging fails during staging.  The code violates
this: the `with` header at line 89 opens the destination with mode `"wb"`
(truncating it) BEFORE the staging `ds.to_zarr` at line 91 runs, so a
staging failure leaves a zero-length destination that equals neither the
prior nor the new archive.  Evaluated here at prior archive `[1, 2, 3]` and
new archive `[7, 8]`. -/
theorem C1_staging_failure_truncates_destination :
    destAfter [1, 2, 3] [7, 8] .stagingFailed = []
    ∧ destAfter [1, 2, 3] [7, 8] .stagingFailed ≠ [1, 2, 3]
    ∧ destAfter [1, 2, 3] [7, 8] .stagingFailed ≠ [7, 8]
    ∧ (destAfter [1, 2, 3] [7, 8] .stagingFailed).length = 0 := by
  refine ⟨rfl, ?_, ?_, rfl⟩ <;> decide

/-- Claim C2 counterexample: a failure during step 3 (attribute
normalization) is NOT surfaced as the wrapped storage-write failure — the
normalization loop at lines 47-61 sits outside the `try` block of
lines 63-72, so the `yaml.dump` error on an attribute holding a nested
dictionary with a reduced-precision float at depth two propagates
unwrapped, carrying neither the path nor the `OSError` shape. -/
theorem C2_normalization_failure_escapes_unwrapped :
    write_to_zarr
        { attrs := [("k", .pdict [("a", .pdict [("b", .npfloat32 1)])])],
          variableCoord := [], timeLen := 1, xLen := 1, yLen := 1 }
        false (.ok ()) ("store.zarr")
      = .error (.representerError ("RepresenterError: cannot represent numpy.float32"))
    ∧ isWrappedWriteError (write_to_zarr
        { attrs := [("k", .pdict [("a", .pdict [("b", .npfloat32 1)])])],
          variableCoord := [], timeLen := 1, xLen := 1, yLen := 1 }
        false (.ok ()) ("store.zarr")) = false
    ∧ isWriteError (write_to_zarr
        { attrs := [("k", .pdict [("a", .pdict [("b", .npfloat32 1)])])],
          variableCoord := [], timeLen := 1, xLen := 1, yLen := 1 }
        false (.ok ()) ("store.zarr")) = true :=
  ⟨rfl, rfl, rfl⟩

/-- Claim C2 (amended): any failure during steps 4-6 — the `try` block
holding chunking, the coordinate cast and the commit — is surfaced as the
single `OSError` of line 72, carrying the target path and wrapping the
underlying cause; a step-3 normalization failure, by contrast, propagates
unwrapped. -/
theorem C2_try_block_failure_wrapped (da : DataArray) (storeExists : Bool)
    (path e : String) (attrs2 : List (String × PyVal))
    (h : normalizeAttrs da.attrs = .ok attrs2) :
    write_to_zarr da storeExists (.error e) path
      = .error (.osError ("Error writing dataset to zarr store " ++ path ++ ": " ++ e) e) := by
  simp [write_to_zarr, h]

/-- Witness for C2's amended theorem at a concrete array, path and cause. -/
theorem C2_try_block_failure_wrapped_witness :
    normalizeAttrs ([] : List (String × PyVal)) = .ok []
    ∧ write_to_zarr { attrs := [], variableCoord := [], timeLen := 1, xLen := 1, yLen := 1 }
        false (.error ("disk full")) ("store.zarr")
      = .error (.osError ("Error writing dataset to zarr store " ++ "store.zarr" ++ ": "
          ++ "disk full") ("disk full")) :=
  ⟨rfl, C2_try_block_failure_wrapped _ false ("store.zarr") ("disk full") [] rfl⟩

/-- Claim C3: normalization rewrites each attribute value by kind — a
nested mapping becomes the textual structured-data encoding of its widened
form, a boolean (plain or numpy-boxed) becomes its canonical string
(`str(...)`), an area-definition descriptor becomes its library dump
string, a timestamp becomes its ISO-8601 string — and every value of any
other kind passes through unchanged with no error. -/
theorem C3_normalization_by_kind (es : List (String × PyVal)) (b c : Bool)
    (d i tag s : String) (n x y : Int) :
    normalizeAttrValue (.pdict es) = (yamlDump (.pdict (widenTop es))).map .pstr
    ∧ normalizeAttrValue (.pbool b) = .ok (.pstr (pyStrOf (.pbool b)))
    ∧ normalizeAttrValue (.npbool c) = .ok (.pstr (pyStrOf (.npbool c)))
    ∧ normalizeAttrValue (.areaDef d) = .ok (.pstr d)
    ∧ normalizeAttrValue (.datetime i) = .ok (.pstr i)
    ∧ normalizeAttrValue (.pstr s) = .ok (.pstr s)
    ∧ normalizeAttrValue (.pint n) = .ok (.pint n)
    ∧ normalizeAttrValue (.pfloat x) = .ok (.pfloat x)
    ∧ normalizeAttrValue (.npfloat32 y) = .ok (.npfloat32 y)
    ∧ normalizeAttrValue (.other tag) = .ok (.other tag) :=
  ⟨rfl, rfl, rfl, rfl, rfl, rfl, rfl, rfl, rfl, rfl⟩

/-- Claim C8: with the access-key variable absent resolution fails naming
`AWS_ACCESS_KEY_ID`; with it present and the secret absent resolution
fails naming `AWS_SECRET_ACCESS_KEY`; with both present and no region the
handle uses the default region `eu-west-1`.  The two failure messages are
distinct, so each names exactly the missing credential. -/
theorem C8_s3_credential_resolution (sk reg reg2 : Option String) (key secret : String) :
    get_s3_fs { awsAccessKeyId := none, awsSecretAccessKey := sk, awsRegion := reg }
      = .error (missingVarMsg ("AWS_ACCESS_KEY_ID"))
    ∧ get_s3_fs { awsAccessKeyId := some key, awsSecretAccessKey := none, awsRegion := reg2 }
      = .error (missingVarMsg ("AWS_SECRET_ACCESS_KEY"))
    ∧ get_s3_fs { awsAccessKeyId := some key, awsSecretAccessKey := some secret,
                  awsRegion := none }
      = .ok { anon := false, key := key, secret := secret, regionName := "eu-west-1",
              asynchronous := true }
    ∧ missingVarMsg ("AWS_ACCESS_KEY_ID") ≠ missingVarMsg ("AWS_SECRET_ACCESS_KEY") :=
  ⟨rfl, rfl, rfl, by decide⟩

/-- Claim C4: normalization is idempotent — if the attribute loop succeeds,
running it again over its own output succeeds and changes nothing, because
each rewritten value is a plain string and strings pass through. -/
theorem C4_normalization_idempotent (attrs attrs2 : List (String × PyVal))
    (h : normalizeAttrs attrs = .ok attrs2) :
    normalizeAttrs attrs2 = .ok attrs2 := by
  induction attrs generalizing attrs2 with
  | nil =>
    simp only [normalizeAttrs, Except.ok.injEq] at h
    subst h
    rfl
  | cons p rest ih =>
    obtain ⟨k, v⟩ := p
    simp only [normalizeAttrs] at h
    cases hv : normalizeAttrValue v with
    | error m => rw [hv] at h; simp at h
    | ok w =>
      rw [hv] at h
      cases hr : normalizeAttrs rest with
      | error m => rw [hr] at h; simp at h
      | ok ws =>
        rw [hr] at h
        simp only [Except.ok.injEq] at h
        subst h
        simp [normalizeAttrs, normalizeAttrValue_idem v w hv, ih ws hr]

/-- Witness for C4 at a mapping holding a boolean and a nested dictionary
with a reduced-precision float at top level. -/
theorem C4_normalization_idempotent_witness :
    normalizeAttrs [("b", .pbool true), ("d", .pdict [("x", .npfloat32 2)])]
      = .ok [("b", .pstr ("True")), ("d", .pstr ("x: 2.0\n"))]
    ∧ normalizeAttrs [("b", .pstr ("True")), ("d", .pstr ("x: 2.0\n"))]
      = .ok [("b", .pstr ("True")), ("d", .pstr ("x: 2.0\n"))] :=
  ⟨rfl, C4_normalization_idempotent [("b", .pbool true), ("d", .pdict [("x", .npfloat32 2)])]
    [("b", .pstr ("True")), ("d", .pstr ("x: 2.0\n"))] rfl⟩

/-- Claim C5 counterexample: a nested mapping holding a reduced-precision
float at depth two (inside a deeper dictionary) makes normalization FAIL —
the widening loop at lines 50-53 only rewrites the mapping's immediate
values, so the deeper float reaches `yaml.dump` unwidened and the encoder's
failure branch is reachable, contrary to the claim. -/
theorem C5_deep_reduced_float_fails :
    hasNpFloat32 (.pdict [("a", .pdict [("b", .npfloat32 1)])]) = true
    ∧ normalizeAttrValue (.pdict [("a", .pdict [("b", .npfloat32 1)])])
      = .error ("RepresenterError: cannot represent numpy.float32") :=
  ⟨rfl, rfl⟩

/-- Helper: the top-level widening pass removes every reduced-precision
float from a dictionary whose reduced-precision floats all sit at top
level. -/
theorem widenTop_removes_reduced_floats (es : List (String × PyVal))
    (h : reducedFloatsOnlyAtTop es = true) :
    hasNpFloat32.go (widenTop es) = false := by
  induction es with
  | nil => rfl
  | cons p rest ih =>
    obtain ⟨k, v⟩ := p
    simp only [reducedFloatsOnlyAtTop, List.all_cons, Bool.and_eq_true] at h
    obtain ⟨h1, h2⟩ := h
    have hrest := ih h2
    simp only [widenTop, List.map_cons] at hrest ⊢
    cases v with
    | npfloat32 x => simp [hasNpFloat32.go, hasNpFloat32, hrest]
    | pdict inner =>
      simp only [Bool.not_eq_eq_eq_not, Bool.not_true] at h1
      simp [hasNpFloat32.go, hrest, h1]
    | pstr s => simp [hasNpFloat32.go, hasNpFloat32, hrest]
    | pint n => simp [hasNpFloat32.go, hasNpFloat32, hrest]
    | pfloat x => simp [hasNpFloat32.go, hasNpFloat32, hrest]
    | pbool b => simp [hasNpFloat32.go, hasNpFloat32, hrest]
    | npbool b => simp [hasNpFloat32.go, hasNpFloat32, hrest]
    | areaDef d => simp [hasNpFloat32.go, hasNpFloat32, hrest]
    | datetime i => simp [hasNpFloat32.go, hasNpFloat32, hrest]
    | other t => simp [hasNpFloat32.go, hasNpFloat32, hrest]

/-- Claim C5 (amended): the widening pass covers only the nested mapping's
immediate values, so normalization of a nested mapping cannot fail exactly
when every reduced-precision float inside it sits at top level; it then
returns the textual encoding of the widened mapping. -/
theorem C5_top_level_reduced_floats_widened (es : List (String × PyVal))
    (h : reducedFloatsOnlyAtTop es = true) :
    normalizeAttrValue (.pdict es) = .ok (.pstr (yamlEncode (.pdict (widenTop es)))) := by
  have hw : hasNpFloat32 (.pdict (widenTop es)) = false := by
    show hasNpFloat32.go (widenTop es) = false
    exact widenTop_removes_reduced_floats es h
  simp [normalizeAttrValue, yamlDump, hw, Except.map]

/-- Witness for C5's amended theorem: a mapping with a reduced-precision
float at top level normalizes successfully. -/
theorem C5_top_level_reduced_floats_widened_witness :
    reducedFloatsOnlyAtTop [("x", PyVal.npfloat32 3), ("y", PyVal.pstr ("ok"))] = true
    ∧ normalizeAttrValue (.pdict [("x", PyVal.npfloat32 3), ("y", PyVal.pstr ("ok"))])
      = .ok (.pstr (yamlEncode
          (.pdict (widenTop [("x", PyVal.npfloat32 3), ("y", PyVal.pstr ("ok"))])))) :=
  ⟨rfl, C5_top_level_reduced_floats_widened _ rfl⟩

/-- Claim C6: the write selects mode `"a"` (append) exactly when a store
already exists at the path and `"w"` (create) otherwise; in create mode the
extra kwargs establish the time encoding `nanoseconds since 1970-01-01`
(fixed epoch, nanosecond unit), and in append mode they name only the
append dimension `time`, leaving the store's encoding authoritative. -/
theorem C6_mode_and_time_encoding (da : DataArray) (storeExists : Bool)
    (commit : Except String Unit) (path : String) (r : CommitRecord)
    (h : write_to_zarr da storeExists commit path = .ok r) :
    r.mode = (if storeExists then "a" else "w")
    ∧ r.kwargs = (if storeExists then ZarrKwargs.append ("time")
        else ZarrKwargs.create [("time", { units := "nanoseconds since 1970-01-01" })]) := by
  simp only [write_to_zarr] at h
  cases ha : normalizeAttrs da.attrs with
  | error m => rw [ha] at h; simp at h
  | ok a2 =>
    rw [ha] at h
    cases commit with
    | error e => simp at h
    | ok u =>
      simp only [Except.ok.injEq] at h
      subst h
      cases storeExists <;> exact ⟨rfl, rfl⟩

/-- Witness for C6 at a fresh path (create mode). -/
theorem C6_mode_and_time_encoding_witness :
    write_to_zarr wDa false (.ok ()) ("p") = .ok wRecCreate
    ∧ wRecCreate.mode = "w"
    ∧ wRecCreate.kwargs
      = ZarrKwargs.create [("time", { units := "nanoseconds since 1970-01-01" })] :=
  ⟨rfl, (C6_mode_and_time_encoding wDa false (.ok ()) ("p") wRecCreate rfl).1,
    (C6_mode_and_time_encoding wDa false (.ok ()) ("p") wRecCreate rfl).2⟩

/-- Claim C7: the chunk layout applied before commit chunks `time` at
size 1, each spatial dimension as one chunk spanning its full extent, and
the `variable` dimension at size 1, whatever the array's extents. -/
theorem C7_chunk_layout (da : DataArray) (storeExists : Bool)
    (commit : Except String Unit) (path : String) (r : CommitRecord)
    (h : write_to_zarr da storeExists commit path = .ok r) :
    r.chunks = { time := 1, x_geostationary := da.xLen, y_geostationary := da.yLen,
                 variableDim := 1 } := by
  simp only [write_to_zarr] at h
  cases ha : normalizeAttrs da.attrs with
  | error m => rw [ha] at h; simp at h
  | ok a2 =>
    rw [ha] at h
    cases commit with
    | error e => simp at h
    | ok u =>
      simp only [Except.ok.injEq] at h
      subst h
      rfl

/-- Witness for C7 at extents x=2, y=3 and a one-element coordinate. -/
theorem C7_chunk_layout_witness :
    write_to_zarr wDa true (.ok ()) ("p") = .ok wRecAppend
    ∧ wRecAppend.chunks
      = { time := 1, x_geostationary := 2, y_geostationary := 3, variableDim := 1 } :=
  ⟨rfl, C7_chunk_layout wDa true (.ok ()) ("p") wRecAppend rfl⟩

/-- Claim C9 counterexample: for a store path with no directory separator
the destination computed by line 88 is `<path>/latest.zarr.zip` — a file
INSIDE a directory named like the store path — not a file in the store's
parent directory as the claim states (`rsplit("/", 1)[0]` returns the whole
string when no separator is present). -/
theorem C9_destination_counterexample :
    zippath ("data.zarr") = "data.zarr/latest.zarr.zip"
    ∧ specParentDir ("data.zarr") = ""
    ∧ specParentDir (zippath ("data.zarr")) = "data.zarr"
    ∧ zippath ("data.zarr") ≠ specParentDir ("data.zarr") ++ "/latest.zarr.zip" := by
  refine ⟨rfl, rfl, rfl, ?_⟩
  decide

/-- Claim C9 (amended): for every store path containing a directory
separator, the packaging destination is the fixed well-known filename
`latest.zarr.zip` in the store's parent directory, and that path is what
`create_latest_zip` returns to the caller. -/
theorem C9_destination_in_parent_directory (p : String) (h : '/' ∈ p.toList) :
    zippath p = specParentDir p ++ "/latest.zarr.zip"
    ∧ create_latest_zip_result p = zippath p := by
  refine ⟨?_, rfl⟩
  unfold zippath specParentDir rsplitHead
  cases hd : p.toList.reverse.dropWhile (fun c => c ≠ '/') with
  | nil =>
    exfalso
    have hmem : ('/' : Char) ∈ p.toList.reverse := List.mem_reverse.mpr h
    have hall := List.dropWhile_eq_nil_iff.mp hd
    have hc := hall _ hmem
    simp at hc
  | cons c rest => rfl

/-- Witness for C9's amended theorem at the path `a/b.zarr`. -/
theorem C9_destination_in_parent_directory_witness :
    ('/' ∈ ("a/b.zarr").toList)
    ∧ zippath ("a/b.zarr") = specParentDir ("a/b.zarr") ++ "/latest.zarr.zip"
    ∧ create_latest_zip_result ("a/b.zarr") = zippath ("a/b.zarr") :=
  ⟨by decide, (C9_destination_in_parent_directory ("a/b.zarr") (by decide)).1,
    (C9_destination_in_parent_directory ("a/b.zarr") (by decide)).2⟩

/-- Claim C10: the `astype(str)` cast at line 65 makes every value of the
committed `variable` coordinate string-typed, whatever the dtype of the
input coordinate. -/
theorem C10_variable_coord_string_typed (da : DataArray) (storeExists : Bool)
    (commit : Except String Unit) (path : String) (r : CommitRecord)
    (h : write_to_zarr da storeExists commit path = .ok r) :
    r.varCoord.all isPstr = true := by
  simp only [write_to_zarr] at h
  cases ha : normalizeAttrs da.attrs with
  | error m => rw [ha] at h; simp at h
  | ok a2 =>
    rw [ha] at h
    cases commit with
    | error e => simp at h
    | ok u =>
      simp only [Except.ok.injEq] at h
      subst h
      simp [List.all_eq_true, List.mem_map, astypeStrElem, isPstr]

/-- Witness for C10 at an integer-typed input coordinate. -/
theorem C10_variable_coord_string_typed_witness :
    write_to_zarr wDa true (.ok ()) ("p") = .ok wRecAppend
    ∧ wRecAppend.varCoord.all isPstr = true :=
  ⟨rfl, C10_variable_coord_string_typed wDa true (.ok ()) ("p") wRecAppend rfl⟩
